import Mathlib

/-!
Verification development for the LangHire candidate-evaluation core:
the skill taxonomy, extractor and matcher (src/analyzer/skill_matcher.py)
and the multi-factor scoring engine (src/analyzer/scoring_engine.py),
shallowly embedded in Lean. Python floats are modelled as exact rationals
with the two-decimal rounding made explicit; Python dynamic values (as
passed to the scoring entry points) are modelled by the PyObj type, and
Python exceptions by the Except monad.
-/

namespace LangHire

/-! ### Basic character and string utilities (Python semantics) -/

/-- Python regex whitespace class for ASCII text. -/
def pyIsSpace (c : Char) : Bool :=
  c = ' ' || c = '\t' || c = '\n' || c = '\r' || c = '\x0b' || c = '\x0c'

/-- Python regex word character class for ASCII text. -/
def isWordChar (c : Char) : Bool :=
  c.isAlpha || c.isDigit || c = '_'

/-- Python str.lower for the ASCII texts this system consumes. -/
def lowerStr (s : String) : String := String.mk (s.data.map Char.toLower)

/-- Computable minimum of two rationals (Python min). -/
def minQ (a b : ℚ) : ℚ := if a ≤ b then a else b

/-- Computable floor of a rational. -/
def floorQ (q : ℚ) : ℤ := q.num / (q.den : ℤ)

/-- Does the character list needle occur in hay starting at index i. -/
def sublistAt (needle hay : List Char) (i : Nat) : Bool :=
  decide ((hay.drop i).take needle.length = needle)

/-- Python substring containment test x in y over character lists. -/
def containsSub (needle hay : List Char) : Bool :=
  (List.range (hay.length + 1)).any (fun i => sublistAt needle hay i)

/-- Python substring containment test x in y over strings. -/
def pyIn (needle hay : String) : Bool :=
  containsSub needle.data hay.data

/-- Is the character at index i of t a regex word character (false past the end). -/
def wordAt (t : List Char) (i : Nat) : Bool :=
  match t.get? i with
  | some c => isWordChar c
  | none => false

/-- Is the character just before position p a word character (false at position 0). -/
def prevWordAt (t : List Char) : Nat → Bool
  | 0 => false
  | p + 1 => wordAt t p

/-- Regex word-boundary assertion at position p of t. -/
def boundaryAt (t : List Char) (p : Nat) : Bool :=
  prevWordAt t p != wordAt t p

/-! ### Skill taxonomy and synonym tables (skill_matcher.py) -/

/-- Embeds SkillMatcher._load_skill_categories. -/
def skill_categories : List (String × List String) :=
  [ ("programming_languages",
      ["python", "java", "javascript", "typescript", "c++", "c#", "go",
       "rust", "swift", "kotlin", "scala", "ruby", "php", "r", "matlab"]),
    ("web_technologies",
      ["html", "css", "react", "angular", "vue", "node.js", "express",
       "django", "flask", "spring", "asp.net", "laravel", "rails"]),
    ("databases",
      ["mysql", "postgresql", "mongodb", "redis", "elasticsearch",
       "oracle", "sql server", "sqlite", "cassandra", "dynamodb"]),
    ("cloud_platforms",
      ["aws", "azure", "gcp", "google cloud", "docker", "kubernetes",
       "terraform", "ansible", "jenkins", "gitlab", "github actions"]),
    ("data_science",
      ["pandas", "numpy", "scikit-learn", "tensorflow", "pytorch",
       "spark", "hadoop", "tableau", "power bi", "jupyter"]),
    ("soft_skills",
      ["leadership", "communication", "problem solving", "teamwork",
       "project management", "analytical thinking", "creativity"]) ]

/-- Embeds SkillMatcher._load_skill_synonyms. -/
def skill_synonyms : List (String × List String) :=
  [ ("javascript", ["js", "node", "nodejs", "node.js"]),
    ("typescript", ["ts"]),
    ("python", ["py"]),
    ("postgresql", ["postgres", "psql"]),
    ("mongodb", ["mongo"]),
    ("kubernetes", ["k8s"]),
    ("amazon web services", ["aws"]),
    ("google cloud platform", ["gcp", "google cloud"]),
    ("microsoft azure", ["azure"]),
    ("machine learning", ["ml", "artificial intelligence", "ai"]),
    ("deep learning", ["dl", "neural networks"]),
    ("natural language processing", ["nlp"]),
    ("computer vision", ["cv"]),
    ("user interface", ["ui"]),
    ("user experience", ["ux"]),
    ("application programming interface", ["api", "rest api", "restful"]),
    ("structured query language", ["sql"]),
    ("nosql", ["no-sql", "document database"]),
    ("continuous integration", ["ci", "ci/cd"]),
    ("continuous deployment", ["cd"]),
    ("test driven development", ["tdd"]),
    ("behavior driven development", ["bdd"]),
    ("object oriented programming", ["oop"]),
    ("functional programming", ["fp"]) ]

/-- Number of taxonomy categories whose canonical-skill list contains s. -/
def categoriesContaining (s : String) : Nat :=
  (skill_categories.filter (fun cs => decide (s ∈ cs.2))).length

/-! ### Skill extractor (skill_matcher.py) -/

/-- Match test for the pattern backslash-b skill backslash-b at position i of t. -/
def skillMentionedAt (s t : List Char) (i : Nat) : Bool :=
  sublistAt s t i && boundaryAt t i && boundaryAt t (i + s.length)

/-- Embeds SkillMatcher._skill_mentioned: re.search of the word-bounded,
escaped, lower-cased skill inside text (text is already lower-cased by
callers, as in the source). -/
def skill_mentioned (skill text : String) : Bool :=
  let s := (lowerStr skill).data
  let t := text.data
  (List.range (t.length + 1)).any (fun i => skillMentionedAt s t i)

/-- Append a skill to the list held at key cat, creating the entry at the
end when absent: the behavior of defaultdict(list) item append. -/
def appendEntry : List (String × List String) → String → String → List (String × List String)
  | [], cat, sk => [(cat, [sk])]
  | (c, l) :: rest, cat, sk =>
      if c = cat then (c, l ++ [sk]) :: rest else (c, l) :: appendEntry rest cat sk

/-- First taxonomy category whose canonical list contains the given skill. -/
def findCategoryOf (main : String) : Option String :=
  (skill_categories.find? (fun cs => decide (main ∈ cs.2))).map (fun cs => cs.1)

/-- Record a canonical skill under the category that owns it, skipping the
append when it is already present: the synonym-hit branch of
extract_skills_from_text. -/
def addCanonical (acc : List (String × List String)) (main : String) :
    List (String × List String) :=
  match findCategoryOf main with
  | some cat =>
      if main ∈ ((acc.lookup cat).getD []) then acc else appendEntry acc cat main
  | none => acc

/-- Embeds SkillMatcher.extract_skills_from_text: the direct taxonomy scan
followed by the synonym scan, over the lower-cased text. -/
def extract_skills_from_text (text : String) : List (String × List String) :=
  let t := lowerStr text
  let pass1 :=
    skill_categories.foldl
      (fun acc cs =>
        cs.2.foldl
          (fun acc2 sk => if skill_mentioned sk t then appendEntry acc2 cs.1 sk else acc2)
          acc)
      []
  skill_synonyms.foldl
    (fun acc ms =>
      ms.2.foldl
        (fun acc2 syn => if skill_mentioned syn t then addCanonical acc2 ms.1 else acc2)
        acc)
    pass1

/-! ### Skill match calculator (skill_matcher.py) -/

/-- Python dict.get(category, []) over an association list. -/
def pyGetList (m : List (String × List String)) (k : String) : List String :=
  (m.lookup k).getD []

/-- Python set(...) of a list of strings, as a duplicate-free list. -/
def setOfList (l : List String) : List String := l.dedup

/-- The union of the categories of the two maps, as iterated by
calculate_skill_match_score. -/
def unionCats (cand req : List (String × List String)) : List String :=
  (cand.map Prod.fst ++ req.map Prod.fst).dedup

/-- Categories that are not skipped: those whose required set is nonempty. -/
def activeCats (cand req : List (String × List String)) : List String :=
  (unionCats cand req).filter (fun c => !(setOfList (pyGetList req c)).isEmpty)

/-- candidate set intersect required set for one category. -/
def exactOf (cand req : List (String × List String)) (c : String) : List String :=
  (setOfList (pyGetList cand c)).filter (fun s => decide (s ∈ setOfList (pyGetList req c)))

/-- required set minus candidate set for one category. -/
def missingOf (cand req : List (String × List String)) (c : String) : List String :=
  (setOfList (pyGetList req c)).filter (fun s => decide (s ∉ setOfList (pyGetList cand c)))

/-- Per-category score: exact-match count over required count times 100. -/
def catScore (cand req : List (String × List String)) (c : String) : ℚ :=
  ((exactOf cand req c).length : ℚ) / ((setOfList (pyGetList req c)).length : ℚ) * 100

/-- Result record of calculate_skill_match_score. -/
structure SkillMatchResult where
  exact_matches : List (String × List String)
  missing_skills : List (String × List String)
  category_scores : List (String × ℚ)
  overall_score : ℚ
  total_required : Nat
  total_matched : Nat

/-- Embeds SkillMatcher.calculate_skill_match_score: iterate the union of
categories, skip those with an empty required set, record exact and
missing sets, per-category scores, totals, and the overall score (0 when
no skills are required). -/
def calculate_skill_match_score (cand req : List (String × List String)) :
    SkillMatchResult :=
  let active := activeCats cand req
  let totReq := (active.map (fun c => (setOfList (pyGetList req c)).length)).sum
  let totMat := (active.map (fun c => (exactOf cand req c).length)).sum
  { exact_matches := active.map (fun c => (c, exactOf cand req c))
    missing_skills := active.map (fun c => (c, missingOf cand req c))
    category_scores := active.map (fun c => (c, catScore cand req c))
    overall_score := if totReq > 0 then (totMat : ℚ) / (totReq : ℚ) * 100 else 0
    total_required := totReq
    total_matched := totMat }

/-! ### Dynamic Python values (inputs of the scoring entry points) -/

/-- Dynamic value as it may appear in the dict-shaped records passed to the
scoring engine: a number, a string, or a dict mapping category names to
lists of skill names. -/
inductive PyObj where
  | num (q : ℚ)
  | str (s : String)
  | dict (entries : List (String × List String))
deriving DecidableEq

/-- A Python dict with string keys and dynamic values. -/
abbrev PyDict := List (String × PyObj)

/-- Python d.get(k, dflt). -/
def dictGetD (d : PyDict) (k : String) (dflt : PyObj) : PyObj :=
  (d.lookup k).getD dflt

/-- Python str(obj). Exact only on strings; the renderings of numbers and
dicts are approximations (no claim depends on them). -/
def pyStr : PyObj → String
  | .str s => s
  | .num q => toString q
  | .dict _ => "dict"

/-- Total number of entries across the values of a category-to-skills dict. -/
def sumLens (entries : List (String × List String)) : Nat :=
  (entries.map (fun kv => kv.2.length)).sum

/-- Python sum(len(v) for v in obj.values()): an AttributeError when obj is
not a dict. -/
def sumValueLens : PyObj → Except String Nat
  | .dict entries => .ok (sumLens entries)
  | _ => .error "AttributeError: object has no attribute values"

/-- Python min(obj, bound) with a numeric bound: a TypeError when obj is not
a number. -/
def pyMinNum : PyObj → ℚ → Except String ℚ
  | .num q, b => .ok (minQ q b)
  | _, _ => .error "TypeError: unorderable types"

/-- Python obj * w with a float w: a TypeError when obj is not a number. -/
def pyMulNum : PyObj → ℚ → Except String ℚ
  | .num q, b => .ok (q * b)
  | _, _ => .error "TypeError: unsupported operand types"

/-- Python obj < bound with a numeric bound: a TypeError when obj is not a
number. -/
def pyLtNum : PyObj → ℚ → Except String Bool
  | .num q, b => .ok (decide (q < b))
  | _, _ => .error "TypeError: unorderable types"

/-- Python obj >= bound with a numeric bound: a TypeError when obj is not a
number. -/
def pyGeNum : PyObj → ℚ → Except String Bool
  | .num q, b => .ok (decide (q ≥ b))
  | _, _ => .error "TypeError: unorderable types"

/-- Computable maximum of two rationals (Python max). -/
def maxQ (a b : ℚ) : ℚ := if a ≤ b then b else a

/-- Python max(a, b) - min(a, b) over two dynamic values: the subtraction (or
the comparison against a number) raises a TypeError unless both are
numbers. -/
def pyVariance : PyObj → PyObj → Except String ℚ
  | .num a, .num b => .ok (maxQ a b - minQ a b)
  | _, _ => .error "TypeError: unsupported operand types"

/-! ### Two-decimal rounding (Python round(x, 2), idealized over ℚ) -/

/-- Round a rational to the nearest integer, ties to even (Python round). -/
def rndHalfEven (q : ℚ) : ℤ :=
  if q - (floorQ q : ℚ) = 1/2 then (if floorQ q % 2 = 0 then floorQ q else floorQ q + 1)
  else floorQ (q + 1/2)

/-- Python round(x, 2) idealized over exact rationals. -/
def round2 (q : ℚ) : ℚ := ((rndHalfEven (q * 100) : ℤ) : ℚ) / 100

/-! ### Scoring engine: skills score (scoring_engine.py) -/

/-- Configured hire threshold (config.py Config.HIRE_THRESHOLD). -/
def HIRE_THRESHOLD : ℚ := 70

/-- Configured strong-hire threshold (config.py Config.STRONG_HIRE_THRESHOLD). -/
def STRONG_HIRE_THRESHOLD : ℚ := 85

/-- Breakdown record built by calculate_skills_score. Sub-scores start at 0
and keep whatever value they had when an exception interrupts the body. -/
structure SkillsBreakdown where
  technical_skills : ℚ
  skill_depth : ℚ
  skill_relevance : ℚ
  total_score : ℚ
  details : Option (Nat × Nat × PyObj)
  error : Option String

/-- Embeds ScoringEngine._analyze_skill_depth: the step function of the
total exact-match count. -/
def _analyze_skill_depth (skill_analysis : PyDict) : Except String ℚ :=
  match sumValueLens (dictGetD skill_analysis "exact_matches" (.dict [])) with
  | .error e => .error e
  | .ok n => .ok (if n ≥ 8 then 90 else if n ≥ 5 then 75 else if n ≥ 3 then 60 else 40)

/-- Embeds ScoringEngine._calculate_skill_relevance. -/
def _calculate_skill_relevance (exact missing : PyObj) : Except String ℚ :=
  match sumValueLens exact with
  | .error e => .error e
  | .ok te =>
    match sumValueLens missing with
    | .error e => .error e
    | .ok tm =>
      .ok (if te + tm = 0 then 50
           else minQ ((te : ℚ) / ((te : ℚ) + (tm : ℚ)) * 100) 100)

/-- Embeds ScoringEngine.calculate_skills_score, with its try/except: the
body runs step by step and the first failing step jumps to the handler,
which sets the error message and resets only total_score; fields assigned
before the failure keep their values. -/
def calculate_skills_score (skill_analysis : PyDict) : SkillsBreakdown :=
  let exact := dictGetD skill_analysis "exact_matches" (.dict [])
  let missing := dictGetD skill_analysis "missing_skills" (.dict [])
  let overall := dictGetD skill_analysis "overall_score" (.num 0)
  match pyMinNum overall 100 with
  | .error e =>
      { technical_skills := 0, skill_depth := 0, skill_relevance := 0,
        total_score := 0, details := none,
        error := some ("Skills scoring error: " ++ e) }
  | .ok technical =>
    match _analyze_skill_depth skill_analysis with
    | .error e =>
        { technical_skills := technical, skill_depth := 0, skill_relevance := 0,
          total_score := 0, details := none,
          error := some ("Skills scoring error: " ++ e) }
    | .ok depth =>
      match _calculate_skill_relevance exact missing with
      | .error e =>
          { technical_skills := technical, skill_depth := depth, skill_relevance := 0,
            total_score := 0, details := none,
            error := some ("Skills scoring error: " ++ e) }
      | .ok relevance =>
        match sumValueLens exact, sumValueLens missing with
        | .ok ne, .ok nm =>
            { technical_skills := technical, skill_depth := depth,
              skill_relevance := relevance,
              total_score := round2 (technical * 0.4 + depth * 0.3 + relevance * 0.3),
              details := some (ne, nm, overall), error := none }
        | _, _ =>
            -- unreachable: _calculate_skill_relevance succeeded on the same values
            { technical_skills := technical, skill_depth := depth,
              skill_relevance := relevance, total_score := 0, details := none,
              error := some "Skills scoring error: AttributeError: object has no attribute values" }

/-! ### Scoring engine: experience score (scoring_engine.py)

The three year patterns of _calculate_years_score are specialized matchers:
for these patterns (digit runs followed by literal text) the regex engine
never needs to backtrack, so a direct greedy scan is exact. re.findall
semantics: try each position left to right, and on a match continue after
its end. -/

/-- Decimal value of a digit character. -/
def charToNat (c : Char) : Nat := c.toNat - '0'.toNat

/-- Python int(s) for a nonempty string of decimal digits. -/
def strToNat (s : String) : Nat :=
  s.data.foldl (fun n c => n * 10 + charToNat c) 0

/-- Match the pattern (digits)+?spaces year s? at the head of l, returning
the captured digit group and the remaining text. -/
def tryP1 (l : List Char) : Option (String × List Char) :=
  let ds := l.takeWhile Char.isDigit
  if ds.isEmpty then none
  else
    let r1 := l.drop ds.length
    let r2 := match r1 with
      | '+' :: t => t
      | _ => r1
    let r3 := r2.dropWhile pyIsSpace
    match r3 with
    | 'y' :: 'e' :: 'a' :: 'r' :: t =>
        let t2 := match t with
          | 's' :: u => u
          | _ => t
        some (String.mk ds, t2)
    | _ => none

/-- Match the pattern (4 digits) spaces - spaces (4 digits) at the head of l. -/
def tryP2 (l : List Char) : Option ((String × String) × List Char) :=
  match l with
  | a :: b :: c :: d :: r1 =>
    if a.isDigit && b.isDigit && c.isDigit && d.isDigit then
      match r1.dropWhile pyIsSpace with
      | '-' :: r3 =>
        match r3.dropWhile pyIsSpace with
        | e :: f :: g :: h :: r5 =>
          if e.isDigit && f.isDigit && g.isDigit && h.isDigit then
            some ((String.mk [a, b, c, d], String.mk [e, f, g, h]), r5)
          else none
        | _ => none
      | _ => none
    else none
  | _ => none

/-- Match the pattern (4 digits) spaces - spaces present at the head of l. -/
def tryP3 (l : List Char) : Option (String × List Char) :=
  match l with
  | a :: b :: c :: d :: r1 =>
    if a.isDigit && b.isDigit && c.isDigit && d.isDigit then
      match r1.dropWhile pyIsSpace with
      | '-' :: r3 =>
        match r3.dropWhile pyIsSpace with
        | 'p' :: 'r' :: 'e' :: 's' :: 'e' :: 'n' :: 't' :: r5 =>
            some (String.mk [a, b, c, d], r5)
        | _ => none
      | _ => none
    else none
  | _ => none

/-- re.findall scan for the first pattern; every step consumes at least one
character, so fuel equal to the text length suffices. -/
def scanP1 : Nat → List Char → List String
  | 0, _ => []
  | _ + 1, [] => []
  | fuel + 1, c :: rest =>
    match tryP1 (c :: rest) with
    | some (g, rem) => g :: scanP1 fuel rem
    | none => scanP1 fuel rest

/-- re.findall scan for the second pattern. -/
def scanP2 : Nat → List Char → List (String × String)
  | 0, _ => []
  | _ + 1, [] => []
  | fuel + 1, c :: rest =>
    match tryP2 (c :: rest) with
    | some (g, rem) => g :: scanP2 fuel rem
    | none => scanP2 fuel rest

/-- re.findall scan for the third pattern. -/
def scanP3 : Nat → List Char → List String
  | 0, _ => []
  | _ + 1, [] => []
  | fuel + 1, c :: rest =>
    match tryP3 (c :: rest) with
    | some (g, rem) => g :: scanP3 fuel rem
    | none => scanP3 fuel rest

/-- The per-pattern loop body of _calculate_years_score for patterns whose
findall result is a list of strings (one capture group). Note: the source
tests len(matches[0]) == 1 on the matched string itself, so only a
single-digit first match takes the direct-mention branch; a two-character
match string is treated as a year range made of its two characters. -/
def processStrMatches (ms : List String) (total : Int) : Int :=
  match ms with
  | [] => total
  | m0 :: _ =>
    if m0.length = 1 then max total (strToNat m0 : Int)
    else
      ms.foldl
        (fun t m =>
          if m.length = 2 then
            match m.data with
            | c0 :: c1 :: _ =>
                let startYear : Int := charToNat c0
                let endYear : Int := if c1.isDigit then charToNat c1 else 2024
                t + (endYear - startYear)
            | _ => t
          else t)
        total

/-- The per-pattern loop body for the two-group pattern, whose findall
result is a list of pairs; len of a pair is 2, so every match goes through
the year-range branch. -/
def processPairMatches (ms : List (String × String)) (total : Int) : Int :=
  ms.foldl
    (fun t m =>
      let startYear : Int := strToNat m.1
      let endYear : Int :=
        if !m.2.data.isEmpty && m.2.data.all Char.isDigit then (strToNat m.2 : Int)
        else 2024
      t + (endYear - startYear))
    total

/-- The total_years accumulation of _calculate_years_score over the three
patterns, in source order. -/
def yearsTotal (t : List Char) : Int :=
  let t1 := processStrMatches (scanP1 (t.length + 1) t) 0
  let t2 := processPairMatches (scanP2 (t.length + 1) t) t1
  processStrMatches (scanP3 (t.length + 1) t) t2

/-- Embeds ScoringEngine._calculate_years_score. -/
def _calculate_years_score (resume_data : PyDict) : ℚ :=
  let w := (lowerStr (pyStr (dictGetD resume_data "work_experience" (.str "")))).data
  let total := yearsTotal w
  if total ≥ 10 then 100
  else if total ≥ 7 then 90
  else if total ≥ 5 then 80
  else if total ≥ 3 then 70
  else if total ≥ 1 then 60
  else 30

/-- Embeds ScoringEngine._calculate_role_relevance (placeholder constant). -/
def _calculate_role_relevance (_experience_analysis : PyDict) : ℚ := 75

/-- Embeds ScoringEngine._calculate_industry_match (placeholder constant). -/
def _calculate_industry_match (_experience_analysis : PyDict) : ℚ := 70

/-- Embeds ScoringEngine._calculate_career_progression: base 50, plus 10
per seniority indicator found in the work-experience text, capped at 100. -/
def _calculate_career_progression (resume_data : PyDict) : ℚ :=
  let w := lowerStr (pyStr (dictGetD resume_data "work_experience" (.str "")))
  let indicators := ["promoted", "senior", "lead", "manager", "director",
                     "principal", "architect", "head of", "chief"]
  let score : ℚ := 50 + 10 * ((indicators.filter (fun i => pyIn i w)).length : ℚ)
  minQ score 100

/-- Breakdown record built by calculate_experience_score. The source wraps
the body in try/except, but over these inputs every step is total, so the
handler never fires and error stays absent. -/
structure ExperienceBreakdown where
  years_of_experience : ℚ
  role_relevance : ℚ
  industry_match : ℚ
  career_progression : ℚ
  total_score : ℚ
  error : Option String

/-- Embeds ScoringEngine.calculate_experience_score. -/
def calculate_experience_score (experience_analysis resume_data : PyDict) :
    ExperienceBreakdown :=
  let years := _calculate_years_score resume_data
  let role := _calculate_role_relevance experience_analysis
  let industry := _calculate_industry_match experience_analysis
  let progression := _calculate_career_progression resume_data
  { years_of_experience := years, role_relevance := role,
    industry_match := industry, career_progression := progression,
    total_score := round2 (years * 0.3 + role * 0.4 + industry * 0.2 + progression * 0.1),
    error := none }

/-! ### Scoring engine: education score (scoring_engine.py) -/

/-- Embeds ScoringEngine._calculate_degree_match. -/
def _calculate_degree_match (education_text jd_education : String) : ℚ :=
  let degree_levels := ["phd", "doctorate", "master", "bachelor", "associate"]
  let candidate_degree := degree_levels.find? (fun d => pyIn d education_text)
  let required_degree := degree_levels.find? (fun d => pyIn d jd_education)
  match required_degree with
  | none => 80
  | some r =>
    match candidate_degree with
    | none => 30
    | some c =>
      let degree_scores := [("associate", (1 : ℤ)), ("bachelor", 2), ("master", 3),
                            ("doctorate", 4), ("phd", 4)]
      let cl := (degree_scores.lookup c).getD 0
      let rl := (degree_scores.lookup r).getD 0
      if cl ≥ rl then 100 else if cl = rl - 1 then 70 else 40

/-- Embeds ScoringEngine._calculate_field_relevance. -/
def _calculate_field_relevance (education_text jd_education : String) : ℚ :=
  let tech_fields := ["computer science", "software", "engineering", "technology",
                      "information systems", "data science", "mathematics", "statistics"]
  let candidate_has_tech := tech_fields.any (fun f => pyIn f education_text)
  let jd_requires_tech := tech_fields.any (fun f => pyIn f jd_education)
  if !jd_requires_tech then 80
  else if candidate_has_tech then 90
  else 50

/-- Embeds ScoringEngine._calculate_certification_score. -/
def _calculate_certification_score (resume_data : PyDict) : ℚ :=
  let text := lowerStr (pyStr (dictGetD resume_data "achievements" (.str "")))
  let cert_indicators := ["certified", "certification", "aws", "azure", "google cloud",
                          "pmp", "scrum master", "agile", "itil", "cissp"]
  let cert_count := (cert_indicators.filter (fun i => pyIn i text)).length
  minQ ((cert_count : ℚ) * 20) 100

/-- Breakdown record built by calculate_education_score; institution_quality
is initialized to 0 and never assigned by the source. As for experience,
the try/except never fires over these inputs. -/
structure EducationBreakdown where
  degree_match : ℚ
  institution_quality : ℚ
  field_relevance : ℚ
  certifications : ℚ
  total_score : ℚ
  error : Option String

/-- Embeds ScoringEngine.calculate_education_score. -/
def calculate_education_score (resume_data jd_data : PyDict) : EducationBreakdown :=
  let education_text := lowerStr (pyStr (dictGetD resume_data "education" (.str "")))
  let jd_education := lowerStr (pyStr (dictGetD jd_data "educational_requirements" (.str "")))
  let degree := _calculate_degree_match education_text jd_education
  let field := _calculate_field_relevance education_text jd_education
  let cert := _calculate_certification_score resume_data
  { degree_match := degree, institution_quality := 0, field_relevance := field,
    certifications := cert,
    total_score := round2 (degree * 0.4 + field * 0.4 + cert * 0.2),
    error := none }

/-! ### Scoring engine: achievements, recommendation, overall score -/

/-- Embeds ScoringEngine._calculate_achievements_score. -/
def _calculate_achievements_score (resume_data : PyDict) : ℚ :=
  let text := lowerStr (pyStr (dictGetD resume_data "achievements" (.str "")))
  let indicators := ["award", "recognition", "published", "patent", "led team",
                     "increased", "improved", "reduced", "saved", "grew", "built"]
  let score : ℚ := 50 + 8 * ((indicators.filter (fun i => pyIn i text)).length : ℚ)
  minQ score 100

/-- Recommendation record built by _generate_recommendation. -/
structure Recommendation where
  decision : String
  confidence : String
  reasoning : String
  score : ℚ

/-- Embeds ScoringEngine._generate_recommendation with the configured
thresholds. -/
def _generate_recommendation (overall_score : ℚ) : Recommendation :=
  if overall_score ≥ STRONG_HIRE_THRESHOLD then
    { decision := "Strong Hire", confidence := "High",
      reasoning := "Candidate demonstrates strong alignment with role requirements",
      score := overall_score }
  else if overall_score ≥ HIRE_THRESHOLD then
    { decision := "Hire", confidence := "Medium-High",
      reasoning := "Candidate meets most requirements with some areas for development",
      score := overall_score }
  else if overall_score ≥ 50 then
    { decision := "Maybe", confidence := "Medium",
      reasoning := "Candidate shows potential but has significant gaps",
      score := overall_score }
  else
    { decision := "Don\x27t Hire", confidence := "High",
      reasoning := "Candidate does not meet minimum requirements",
      score := overall_score }

/-- Embeds ScoringEngine._identify_risk_factors: comparisons against the
dynamic total_score fields can raise a TypeError. -/
def _identify_risk_factors (skills_score experience_score education_score : PyDict) :
    Except String (List String) :=
  match pyLtNum (dictGetD skills_score "total_score" (.num 0)) 60,
        pyLtNum (dictGetD experience_score "total_score" (.num 0)) 50,
        pyLtNum (dictGetD education_score "total_score" (.num 0)) 40 with
  | .ok a, .ok b, .ok c =>
      .ok ((if a then ["Significant technical skill gaps"] else []) ++
           (if b then ["Limited relevant experience"] else []) ++
           (if c then ["Educational background concerns"] else []))
  | .error e, _, _ => .error e
  | _, .error e, _ => .error e
  | _, _, .error e => .error e

/-- Embeds ScoringEngine._identify_strengths. -/
def _identify_strengths (skills_score experience_score education_score : PyDict) :
    Except String (List String) :=
  match pyGeNum (dictGetD skills_score "total_score" (.num 0)) 80,
        pyGeNum (dictGetD experience_score "total_score" (.num 0)) 80,
        pyGeNum (dictGetD education_score "total_score" (.num 0)) 80 with
  | .ok a, .ok b, .ok c =>
      .ok ((if a then ["Strong technical skills"] else []) ++
           (if b then ["Extensive relevant experience"] else []) ++
           (if c then ["Strong educational background"] else []))
  | .error e, _, _ => .error e
  | _, .error e, _ => .error e
  | _, _, .error e => .error e

/-- Embeds ScoringEngine._calculate_confidence. -/
def _calculate_confidence (overall_score : ℚ) (skills_score experience_score : PyDict) :
    Except String String :=
  match pyVariance (dictGetD skills_score "total_score" (.num 0))
                   (dictGetD experience_score "total_score" (.num 0)) with
  | .error e => .error e
  | .ok v =>
      .ok (if v < 20 ∧ (overall_score > 80 ∨ overall_score < 40) then "High"
           else if v < 30 then "Medium"
           else "Low")

/-- Result record built by calculate_overall_score. component_scores echoes
the three dynamic totals plus the achievements number; score_breakdown
echoes the three input breakdown dicts. -/
structure OverallResult where
  overall_score : ℚ
  component_scores : PyObj × PyObj × PyObj × ℚ
  recommendation : Recommendation
  score_breakdown : PyDict × PyDict × PyDict
  risk_factors : List String
  strengths : List String
  decision_confidence : String

/-- Embeds ScoringEngine.calculate_overall_score. Unlike the three factor
scorers, this function has no try/except: a failing step surfaces as an
error to the caller. -/
def calculate_overall_score (skills_score experience_score education_score
    resume_data : PyDict) : Except String OverallResult :=
  let skills_total := dictGetD skills_score "total_score" (.num 0)
  let experience_total := dictGetD experience_score "total_score" (.num 0)
  let education_total := dictGetD education_score "total_score" (.num 0)
  let achievements_score := _calculate_achievements_score resume_data
  match pyMulNum skills_total 0.35 with
  | .error e => .error e
  | .ok s =>
    match pyMulNum experience_total 0.30 with
    | .error e => .error e
    | .ok e =>
      match pyMulNum education_total 0.15 with
      | .error er => .error er
      | .ok d =>
        let overall := s + e + d + achievements_score * 0.10
        let recommendation := _generate_recommendation overall
        match _identify_risk_factors skills_score experience_score education_score with
        | .error er => .error er
        | .ok risks =>
          match _identify_strengths skills_score experience_score education_score with
          | .error er => .error er
          | .ok strengths =>
            match _calculate_confidence overall skills_score experience_score with
            | .error er => .error er
            | .ok confidence =>
              .ok { overall_score := round2 overall,
                    component_scores := (skills_total, experience_total,
                                         education_total, achievements_score),
                    recommendation := recommendation,
                    score_breakdown := (skills_score, experience_score, education_score),
                    risk_factors := risks, strengths := strengths,
                    decision_confidence := confidence }

/-- Is an Except result an error (an uncaught Python exception). -/
def isError {α : Type} : Except String α → Bool
  | .error _ => true
  | .ok _ => false

/-- The overall_score field of a successful overall result. -/
def resultScore : Except String OverallResult → Option ℚ
  | .ok r => some r.overall_score
  | .error _ => none

/-! ### Bridge lemmas between the computable primitives and Mathlib -/

lemma minQ_eq (a b : ℚ) : minQ a b = min a b := (min_def a b).symm

lemma maxQ_eq (a b : ℚ) : maxQ a b = max a b := (max_def a b).symm

lemma floorQ_eq (q : ℚ) : floorQ q = ⌊q⌋ := Rat.floor_def.symm

lemma rndHalfEven_eq (q : ℚ) :
    rndHalfEven q =
      if q - (⌊q⌋ : ℚ) = 1/2 then (if ⌊q⌋ % 2 = 0 then ⌊q⌋ else ⌊q⌋ + 1)
      else ⌊q + 1/2⌋ := by
  simp only [rndHalfEven, floorQ_eq]

lemma rndHalfEven_le {q : ℚ} {n : ℤ} (h : q ≤ (n : ℚ)) : rndHalfEven q ≤ n := by
  rw [rndHalfEven_eq]
  split
  · next hfr =>
    have hlt : (⌊q⌋ : ℚ) < (n : ℚ) := by
      have : (⌊q⌋ : ℚ) = q - 1/2 := by linarith
      rw [this]; linarith
    have hlt2 : ⌊q⌋ < n := by exact_mod_cast hlt
    split
    · omega
    · omega
  · have : q + 1/2 < (n : ℚ) + 1 := by linarith
    exact Int.floor_le_iff.mpr (by push_cast; linarith)

lemma rndHalfEven_ge {q : ℚ} {n : ℤ} (h : (n : ℚ) ≤ q) : n ≤ rndHalfEven q := by
  rw [rndHalfEven_eq]
  have hfl : n ≤ ⌊q⌋ := Int.le_floor.mpr h
  split
  · split
    · exact hfl
    · omega
  · have : n ≤ ⌊q + 1/2⌋ := Int.le_floor.mpr (by push_cast; linarith)
    exact this

lemma round2_nonneg {q : ℚ} (h : 0 ≤ q) : 0 ≤ round2 q := by
  unfold round2
  have h0 : ((0 : ℤ) : ℚ) ≤ q * 100 := by push_cast; positivity
  have := rndHalfEven_ge h0
  have : ((0 : ℤ) : ℚ) ≤ ((rndHalfEven (q * 100) : ℤ) : ℚ) := by exact_mod_cast this
  have h100 : (0 : ℚ) < 100 := by norm_num
  apply div_nonneg _ (le_of_lt h100)
  exact_mod_cast this

lemma round2_le_100 {q : ℚ} (h : q ≤ 100) : round2 q ≤ 100 := by
  unfold round2
  have h0 : q * 100 ≤ ((10000 : ℤ) : ℚ) := by push_cast; linarith
  have h1 := rndHalfEven_le h0
  have h2 : ((rndHalfEven (q * 100) : ℤ) : ℚ) ≤ 10000 := by exact_mod_cast h1
  linarith

lemma round2_int (n : ℤ) {q : ℚ} (h : q * 100 = (n : ℚ)) : round2 q = q := by
  unfold round2
  rw [h, rndHalfEven_eq]
  have hfl : ⌊(n : ℚ)⌋ = n := Int.floor_intCast n
  rw [hfl]
  rw [if_neg (by norm_num)]
  have : ⌊(n : ℚ) + 1/2⌋ = n := by
    rw [add_comm, Int.floor_add_int, show ⌊(1 : ℚ)/2⌋ = 0 by norm_num]
    omega
  rw [this]
  have h100 : (100 : ℚ) ≠ 0 := by norm_num
  field_simp at h ⊢
  linarith

/-! ### Helper lemmas about the match calculator -/

lemma lookup_map_pair {β : Type} (f : String → β) (l : List String) (hn : l.Nodup)
    (c : String) :
    (l.map (fun a => (a, f a))).lookup c = if c ∈ l then some (f c) else none := by
  induction l with
  | nil => simp [List.lookup]
  | cons a t ih =>
    have hn' : t.Nodup := hn.of_cons
    by_cases hca : c = a
    · subst hca
      simp [List.lookup, List.lookup_cons]
    · have : (c == a) = false := by simp [hca]
      simp only [List.map_cons, List.lookup_cons, this, List.mem_cons]
      rw [ih hn']
      by_cases hct : c ∈ t <;> simp [hct, hca]

lemma mem_keys_of_lookup {β : Type} {l : List (String × β)} {c : String} {v : β}
    (h : l.lookup c = some v) : c ∈ l.map Prod.fst := by
  induction l with
  | nil => simp [List.lookup] at h
  | cons p t ih =>
    rw [List.lookup_cons] at h
    by_cases hc : c = p.1
    · simp [hc]
    · have : (c == p.1) = false := by simp [hc]
      rw [this] at h
      simp only [List.map_cons, List.mem_cons]
      exact Or.inr (ih h)

lemma lookup_none_of_not_mem_keys {β : Type} {l : List (String × β)} {c : String}
    (h : c ∉ l.map Prod.fst) : l.lookup c = none := by
  induction l with
  | nil => simp [List.lookup]
  | cons p t ih =>
    simp only [List.map_cons, List.mem_cons, not_or] at h
    rw [List.lookup_cons]
    have : (c == p.1) = false := by simp [h.1]
    rw [this]
    exact ih h.2

lemma activeCats_nodup (cand req : List (String × List String)) :
    (activeCats cand req).Nodup :=
  (List.nodup_dedup _).filter _

lemma mem_activeCats {cand req : List (String × List String)} {c : String} :
    c ∈ activeCats cand req ↔
      c ∈ unionCats cand req ∧ setOfList (pyGetList req c) ≠ [] := by
  simp only [activeCats, List.mem_filter, Bool.not_eq_true', List.isEmpty_eq_false]

lemma category_scores_lookup (cand req : List (String × List String)) (c : String) :
    (calculate_skill_match_score cand req).category_scores.lookup c =
      if c ∈ activeCats cand req then some (catScore cand req c) else none := by
  unfold calculate_skill_match_score
  exact lookup_map_pair _ _ (activeCats_nodup cand req) c

lemma exact_matches_lookup (cand req : List (String × List String)) (c : String) :
    (calculate_skill_match_score cand req).exact_matches.lookup c =
      if c ∈ activeCats cand req then some (exactOf cand req c) else none := by
  unfold calculate_skill_match_score
  exact lookup_map_pair _ _ (activeCats_nodup cand req) c

lemma missing_skills_lookup (cand req : List (String × List String)) (c : String) :
    (calculate_skill_match_score cand req).missing_skills.lookup c =
      if c ∈ activeCats cand req then some (missingOf cand req c) else none := by
  unfold calculate_skill_match_score
  exact lookup_map_pair _ _ (activeCats_nodup cand req) c

lemma exactOf_nodup (cand req : List (String × List String)) (c : String) :
    (exactOf cand req c).Nodup :=
  (List.nodup_dedup _).filter _

lemma exactOf_length_le (cand req : List (String × List String)) (c : String) :
    (exactOf cand req c).length ≤ (setOfList (pyGetList req c)).length := by
  apply List.Subperm.length_le
  apply List.Nodup.subperm (exactOf_nodup cand req c)
  intro a ha
  simp only [exactOf, List.mem_filter, decide_eq_true_eq] at ha
  exact ha.2

lemma catScore_bounds (cand req : List (String × List String)) (c : String)
    (hne : setOfList (pyGetList req c) ≠ []) :
    0 ≤ catScore cand req c ∧ catScore cand req c ≤ 100 := by
  unfold catScore
  have hd : (0 : ℚ) < ((setOfList (pyGetList req c)).length : ℚ) := by
    have : 0 < (setOfList (pyGetList req c)).length := List.length_pos.mpr hne
    exact_mod_cast this
  constructor
  · positivity
  · have hle : ((exactOf cand req c).length : ℚ) ≤ ((setOfList (pyGetList req c)).length : ℚ) := by
      exact_mod_cast exactOf_length_le cand req c
    have h1 : ((exactOf cand req c).length : ℚ) / ((setOfList (pyGetList req c)).length : ℚ) ≤ 1 :=
      (div_le_one hd).mpr hle
    linarith

lemma pyGetList_appendEntry (cand : List (String × List String)) (cat x : String) :
    pyGetList (appendEntry cand cat x) cat = pyGetList cand cat ++ [x] := by
  induction cand with
  | nil => simp [appendEntry, pyGetList, List.lookup]
  | cons p t ih =>
    obtain ⟨c, l⟩ := p
    by_cases hc : c = cat
    · subst hc
      simp [appendEntry, pyGetList, List.lookup_cons]
    · have hbeq : (cat == c) = false := by simp [Ne.symm hc]
      simp only [appendEntry, if_neg hc, pyGetList, List.lookup_cons, hbeq] at ih ⊢
      exact ih

lemma mem_unionCats_right {cand req : List (String × List String)} {c : String}
    (h : c ∈ req.map Prod.fst) : c ∈ unionCats cand req := by
  unfold unionCats
  rw [List.mem_dedup]
  exact List.mem_append_right _ h

lemma lookup_of_pyGetList_mem {req : List (String × List String)} {c x : String}
    (h : x ∈ pyGetList req c) : ∃ l, req.lookup c = some l ∧ x ∈ l := by
  unfold pyGetList at h
  cases hl : req.lookup c with
  | none => rw [hl] at h; simp at h
  | some l => rw [hl] at h; exact ⟨l, rfl, h⟩

/-- Shape of calculate_skills_score on a well-typed record: both dict fields
are dicts and the overall score is a number, so the body runs to completion. -/
lemma calculate_skills_score_typed (sa : PyDict) (em ms : List (String × List String))
    (q : ℚ)
    (he : dictGetD sa "exact_matches" (.dict []) = .dict em)
    (hm : dictGetD sa "missing_skills" (.dict []) = .dict ms)
    (ho : dictGetD sa "overall_score" (.num 0) = .num q) :
    calculate_skills_score sa =
      { technical_skills := minQ q 100,
        skill_depth :=
          if sumLens em ≥ 8 then 90
          else if sumLens em ≥ 5 then 75
          else if sumLens em ≥ 3 then 60 else 40,
        skill_relevance :=
          if sumLens em + sumLens ms = 0 then 50
          else minQ ((sumLens em : ℚ) /
                 ((sumLens em : ℚ) + (sumLens ms : ℚ)) * 100) 100,
        total_score :=
          round2 (minQ q 100 * 0.4 +
            (if sumLens em ≥ 8 then 90
             else if sumLens em ≥ 5 then 75
             else if sumLens em ≥ 3 then 60 else 40) * 0.3 +
            (if sumLens em + sumLens ms = 0 then 50
             else minQ ((sumLens em : ℚ) /
                    ((sumLens em : ℚ) + (sumLens ms : ℚ)) * 100) 100) * 0.3),
        details := some (sumLens em, sumLens ms, .num q),
        error := none } := by
  have hd : _analyze_skill_depth sa =
      .ok (if sumLens em ≥ 8 then 90
           else if sumLens em ≥ 5 then 75
           else if sumLens em ≥ 3 then 60 else 40) := by
    unfold _analyze_skill_depth
    rw [he]
    rfl
  have hr : _calculate_skill_relevance (.dict em) (.dict ms) =
      .ok (if sumLens em + sumLens ms = 0 then 50
           else minQ ((sumLens em : ℚ) /
                  ((sumLens em : ℚ) + (sumLens ms : ℚ)) * 100) 100) := rfl
  simp only [calculate_skills_score]
  rw [he, hm, ho, hd, hr]
  rfl

/-! ### Helper lemmas about the extractor -/

lemma skill_mentioned_iff (term text : String) :
    skill_mentioned term text = true ↔
      ∃ i, i ≤ text.data.length ∧
        sublistAt (lowerStr term).data text.data i = true ∧
        boundaryAt text.data i = true ∧
        boundaryAt text.data (i + (lowerStr term).data.length) = true := by
  simp only [skill_mentioned, List.any_eq_true, List.mem_range, Nat.lt_succ_iff,
    skillMentionedAt, Bool.and_eq_true]
  constructor
  · rintro ⟨i, hi, ⟨h1, h2⟩, h3⟩
    exact ⟨i, hi, h1, h2, h3⟩
  · rintro ⟨i, hi, h1, h2, h3⟩
    exact ⟨i, hi, ⟨h1, h2⟩, h3⟩

lemma sublistAt_get {s t : List Char} {i : Nat} (h : sublistAt s t i = true)
    {j : Nat} (hj : j < s.length) : t.get? (i + j) = s.get? j := by
  unfold sublistAt at h
  rw [decide_eq_true_iff] at h
  have hs : s.get? j = ((t.drop i).take s.length).get? j := by rw [h]
  rw [List.get?_take hj, List.get?_drop] at hs
  exact hs.symm

/-! ### Bounds of the factor scores -/

lemma years_score_bounds (rd : PyDict) :
    30 ≤ _calculate_years_score rd ∧ _calculate_years_score rd ≤ 100 := by
  unfold _calculate_years_score
  dsimp only
  split_ifs <;> norm_num

lemma progression_bounds (rd : PyDict) :
    0 ≤ _calculate_career_progression rd ∧ _calculate_career_progression rd ≤ 100 := by
  unfold _calculate_career_progression
  rw [minQ_eq]
  refine ⟨le_min (by positivity) (by norm_num), min_le_right _ _⟩

lemma degree_match_bounds (a b : String) :
    30 ≤ _calculate_degree_match a b ∧ _calculate_degree_match a b ≤ 100 := by
  unfold _calculate_degree_match
  dsimp only
  split
  · norm_num
  · split
    · norm_num
    · split_ifs <;> norm_num

lemma field_relevance_bounds (a b : String) :
    50 ≤ _calculate_field_relevance a b ∧ _calculate_field_relevance a b ≤ 90 := by
  unfold _calculate_field_relevance
  dsimp only
  split_ifs <;> norm_num

lemma certification_bounds (rd : PyDict) :
    0 ≤ _calculate_certification_score rd ∧ _calculate_certification_score rd ≤ 100 := by
  unfold _calculate_certification_score
  rw [minQ_eq]
  refine ⟨le_min (by positivity) (by norm_num), min_le_right _ _⟩

lemma achievements_bounds (rd : PyDict) :
    50 ≤ _calculate_achievements_score rd ∧ _calculate_achievements_score rd ≤ 100 := by
  unfold _calculate_achievements_score
  rw [minQ_eq]
  have h : (0 : ℚ) ≤ ((( ["award", "recognition", "published", "patent", "led team",
      "increased", "improved", "reduced", "saved", "grew", "built"].filter
      (fun i => pyIn i (lowerStr (pyStr (dictGetD rd "achievements" (.str "")))))).length : ℕ) : ℚ) := by
    positivity
  refine ⟨le_min (by linarith) (by norm_num), min_le_right _ _⟩

lemma experience_total_bounds (ea rd : PyDict) :
    0 ≤ (calculate_experience_score ea rd).total_score ∧
    (calculate_experience_score ea rd).total_score ≤ 100 := by
  obtain ⟨hy0, hy1⟩ := years_score_bounds rd
  obtain ⟨hp0, hp1⟩ := progression_bounds rd
  unfold calculate_experience_score
  constructor
  · apply round2_nonneg
    unfold _calculate_role_relevance _calculate_industry_match
    linarith
  · apply round2_le_100
    unfold _calculate_role_relevance _calculate_industry_match
    linarith

lemma education_total_bounds (rd jd : PyDict) :
    0 ≤ (calculate_education_score rd jd).total_score ∧
    (calculate_education_score rd jd).total_score ≤ 100 := by
  obtain ⟨hd0, hd1⟩ := degree_match_bounds
    (lowerStr (pyStr (dictGetD rd "education" (.str ""))))
    (lowerStr (pyStr (dictGetD jd "educational_requirements" (.str ""))))
  obtain ⟨hf0, hf1⟩ := field_relevance_bounds
    (lowerStr (pyStr (dictGetD rd "education" (.str ""))))
    (lowerStr (pyStr (dictGetD jd "educational_requirements" (.str ""))))
  obtain ⟨hc0, hc1⟩ := certification_bounds rd
  unfold calculate_education_score
  constructor
  · apply round2_nonneg
    linarith
  · apply round2_le_100
    linarith

lemma skills_total_bounds (sa : PyDict) (em ms : List (String × List String)) (q : ℚ)
    (he : dictGetD sa "exact_matches" (.dict []) = .dict em)
    (hm : dictGetD sa "missing_skills" (.dict []) = .dict ms)
    (ho : dictGetD sa "overall_score" (.num 0) = .num q)
    (hq0 : 0 ≤ q) (hq1 : q ≤ 100) :
    0 ≤ (calculate_skills_score sa).total_score ∧
    (calculate_skills_score sa).total_score ≤ 100 := by
  rw [calculate_skills_score_typed sa em ms q he hm ho]
  have hT : 0 ≤ minQ q 100 ∧ minQ q 100 ≤ 100 := by
    rw [minQ_eq]
    exact ⟨le_min hq0 (by norm_num), min_le_right _ _⟩
  have hD : 40 ≤ (if sumLens em ≥ 8 then (90 : ℚ)
      else if sumLens em ≥ 5 then 75 else if sumLens em ≥ 3 then 60 else 40) ∧
      (if sumLens em ≥ 8 then (90 : ℚ)
      else if sumLens em ≥ 5 then 75 else if sumLens em ≥ 3 then 60 else 40) ≤ 90 := by
    split_ifs <;> norm_num
  have hR : 0 ≤ (if sumLens em + sumLens ms = 0 then (50 : ℚ)
      else minQ ((sumLens em : ℚ) / ((sumLens em : ℚ) + (sumLens ms : ℚ)) * 100) 100) ∧
      (if sumLens em + sumLens ms = 0 then (50 : ℚ)
      else minQ ((sumLens em : ℚ) / ((sumLens em : ℚ) + (sumLens ms : ℚ)) * 100) 100) ≤ 100 := by
    split_ifs with h
    · norm_num
    · rw [minQ_eq]
      refine ⟨le_min ?_ (by norm_num), min_le_right _ _⟩
      positivity
  constructor
  · apply round2_nonneg
    obtain ⟨h1, h2⟩ := hT
    obtain ⟨h3, h4⟩ := hD
    obtain ⟨h5, h6⟩ := hR
    linarith
  · apply round2_le_100
    obtain ⟨h1, h2⟩ := hT
    obtain ⟨h3, h4⟩ := hD
    obtain ⟨h5, h6⟩ := hR
    linarith

lemma overall_score_typed (sd ed dd rd : PyDict) (s e d : ℚ)
    (hs : dictGetD sd "total_score" (.num 0) = .num s)
    (he : dictGetD ed "total_score" (.num 0) = .num e)
    (hd : dictGetD dd "total_score" (.num 0) = .num d) :
    resultScore (calculate_overall_score sd ed dd rd) =
      some (round2 (s * 0.35 + e * 0.30 + d * 0.15 +
        _calculate_achievements_score rd * 0.10)) := by
  simp only [calculate_overall_score, _identify_risk_factors, _identify_strengths,
    _calculate_confidence]
  rw [hs, he, hd]
  rfl

/-! ### Claim theorems -/

/-- C2: evaluation of the embedded _calculate_years_score at the failing
input. The work history mentions ten-plus years of experience, so the claim
(and the intent documented in the source comments) demands a year count of
10 and a score of 100; the code tests len(matches[0]) == 1 on the matched
string "10", treats it as a year range made of the characters 1 and 0,
accumulates 0 - 1 = -1 total years, and returns the minimum score 30. -/
theorem C2_years_score_failing_input :
    _calculate_years_score [("work_experience", PyObj.str "10+ years of experience")] = 30 ∧
    yearsTotal (lowerStr "10+ years of experience").data = -1 := by
  constructor
  · decide
  · decide

/-- C3: counterexample. The canonical entry "machine learning" is a key of
the synonym table but belongs to zero categories of the skill taxonomy,
not exactly one. -/
theorem C3_synonym_key_without_category :
    ("machine learning", ["ml", "artificial intelligence", "ai"]) ∈ skill_synonyms ∧
    categoriesContaining "machine learning" = 0 := by
  constructor
  · decide
  · decide

/-- C3 (amended): every canonical entry of the synonym table belongs to at
most one taxonomy category; the six entries that are themselves taxonomy
skills (javascript, typescript, python, postgresql, mongodb, kubernetes)
belong to exactly one, and the remaining eighteen belong to none. -/
theorem C3_synonym_keys_at_most_one_category :
    (∀ kv ∈ skill_synonyms, categoriesContaining kv.1 ≤ 1) ∧
    (∀ k ∈ ["javascript", "typescript", "python", "postgresql", "mongodb", "kubernetes"],
      categoriesContaining k = 1) ∧
    ((skill_synonyms.filter (fun kv => decide (categoriesContaining kv.1 = 0))).length = 18) := by
  refine ⟨?_, ?_, ?_⟩
  · decide
  · decide
  · decide

/-- C3 amended witness at the canonical entry javascript. -/
theorem C3_synonym_keys_witness :
    ("javascript", ["js", "node", "nodejs", "node.js"]) ∈ skill_synonyms ∧
    categoriesContaining "javascript" ≤ 1 :=
  ⟨by decide,
   C3_synonym_keys_at_most_one_category.1 ("javascript", ["js", "node", "nodejs", "node.js"])
     (by decide)⟩

/-- C6: with the default thresholds hire = 70 and strong hire = 85, the
recommendation is Strong Hire with High confidence at or above 85, Hire
with Medium-High confidence in [70, 85), Maybe with Medium confidence in
[50, 70), and Dont Hire with High confidence below 50; at the boundary
inputs 85.0, 84.99, 69.99 and 49.99 the decisions are Strong Hire, Hire,
Maybe and Dont Hire respectively. -/
theorem C6_recommendation_thresholds :
    HIRE_THRESHOLD = 70 ∧ STRONG_HIRE_THRESHOLD = 85 ∧
    (∀ s : ℚ, s ≥ STRONG_HIRE_THRESHOLD →
      (_generate_recommendation s).decision = "Strong Hire" ∧
      (_generate_recommendation s).confidence = "High") ∧
    (∀ s : ℚ, s < STRONG_HIRE_THRESHOLD → s ≥ HIRE_THRESHOLD →
      (_generate_recommendation s).decision = "Hire" ∧
      (_generate_recommendation s).confidence = "Medium-High") ∧
    (∀ s : ℚ, s < HIRE_THRESHOLD → s ≥ 50 →
      (_generate_recommendation s).decision = "Maybe" ∧
      (_generate_recommendation s).confidence = "Medium") ∧
    (∀ s : ℚ, s < 50 →
      (_generate_recommendation s).decision = "Don\x27t Hire" ∧
      (_generate_recommendation s).confidence = "High") ∧
    (_generate_recommendation 85).decision = "Strong Hire" ∧
    (_generate_recommendation (8499/100)).decision = "Hire" ∧
    (_generate_recommendation (6999/100)).decision = "Maybe" ∧
    (_generate_recommendation (4999/100)).decision = "Don\x27t Hire" := by
  refine ⟨rfl, rfl, ?_, ?_, ?_, ?_, ?_, ?_, ?_, ?_⟩
  · intro s h
    simp only [_generate_recommendation]
    rw [if_pos h]
    exact ⟨rfl, rfl⟩
  · intro s h1 h2
    simp only [_generate_recommendation]
    rw [if_neg (by exact not_le.mpr h1), if_pos h2]
    exact ⟨rfl, rfl⟩
  · intro s h1 h2
    have h0 : ¬ s ≥ STRONG_HIRE_THRESHOLD := by
      simp only [STRONG_HIRE_THRESHOLD, HIRE_THRESHOLD] at *
      push_neg
      linarith
    simp only [_generate_recommendation]
    rw [if_neg h0, if_neg (by exact not_le.mpr h1), if_pos h2]
    exact ⟨rfl, rfl⟩
  · intro s h1
    have h0 : ¬ s ≥ STRONG_HIRE_THRESHOLD := by
      simp only [STRONG_HIRE_THRESHOLD]
      push_neg
      linarith
    have h2 : ¬ s ≥ HIRE_THRESHOLD := by
      simp only [HIRE_THRESHOLD]
      push_neg
      linarith
    have h3 : ¬ s ≥ (50 : ℚ) := by push_neg; linarith
    simp only [_generate_recommendation]
    rw [if_neg h0, if_neg h2, if_neg h3]
    exact ⟨rfl, rfl⟩
  · simp only [_generate_recommendation, STRONG_HIRE_THRESHOLD]
    rw [if_pos (by norm_num)]
  · simp only [_generate_recommendation, STRONG_HIRE_THRESHOLD, HIRE_THRESHOLD]
    rw [if_neg (by norm_num), if_pos (by norm_num)]
  · simp only [_generate_recommendation, STRONG_HIRE_THRESHOLD, HIRE_THRESHOLD]
    rw [if_neg (by norm_num), if_neg (by norm_num), if_pos (by norm_num)]
  · simp only [_generate_recommendation, STRONG_HIRE_THRESHOLD, HIRE_THRESHOLD]
    rw [if_neg (by norm_num), if_neg (by norm_num), if_neg (by norm_num)]

/-- C6 witness at the concrete score 90. -/
theorem C6_recommendation_witness :
    (90 : ℚ) ≥ STRONG_HIRE_THRESHOLD ∧ (_generate_recommendation 90).decision = "Strong Hire" :=
  ⟨by norm_num [STRONG_HIRE_THRESHOLD],
   (C6_recommendation_thresholds.2.2.1 90 (by norm_num [STRONG_HIRE_THRESHOLD])).1⟩

/-- C7: a term counts as mentioned exactly when it occurs in the lower-cased
text with regex word boundaries on both sides (multi-word terms are single
character sequences here, so they match as contiguous phrases under the
same rule); in particular, extracting from the text javascript developer
registers no match for the canonical skill java, and the full extraction
result is exactly the canonical skill javascript. -/
theorem C7_word_boundary_matching :
    (∀ (term text : String), skill_mentioned term text = true ↔
       ∃ i, i ≤ text.data.length ∧
         sublistAt (lowerStr term).data text.data i = true ∧
         boundaryAt text.data i = true ∧
         boundaryAt text.data (i + (lowerStr term).data.length) = true) ∧
    "java" ∉ ((extract_skills_from_text "javascript developer").lookup
               "programming_languages").getD [] ∧
    extract_skills_from_text "javascript developer" =
      [("programming_languages", ["javascript"])] := by
  refine ⟨skill_mentioned_iff, by decide, by decide⟩

/-- C7 witness: the characterization applied at the term java and the text
my java project, where the occurrence at index 3 is word-bounded. -/
theorem C7_word_boundary_witness :
    skill_mentioned "java" "my java project" = true :=
  (C7_word_boundary_matching.1 "java" "my java project").mpr
    ⟨3, by decide, by decide, by decide, by decide⟩

/-- C10: for a taxonomy term whose last character is not a regex word
character (such as c++ or c#), an occurrence followed by whitespace,
punctuation, or the end of the text can never satisfy the trailing word
boundary; when every occurrence in the text is followed by a non-word
character or the end, _skill_mentioned returns false, and consequently
extract_skills_from_text reports no match at all on the prose
c++ and c# developer. -/
theorem C10_nonword_tail_never_matches :
    (∀ (term text : String),
        isWordChar (((lowerStr term).data.getLast?).getD 'a') = false →
        (List.range (text.data.length + 1)).all (fun i =>
            !(sublistAt (lowerStr term).data text.data i) ||
            !(wordAt text.data (i + (lowerStr term).data.length))) = true →
        skill_mentioned term text = false) ∧
    extract_skills_from_text "c++ and c# developer" = [] ∧
    skill_mentioned "c++" (lowerStr "c++ and c# developer") = false ∧
    skill_mentioned "c#" (lowerStr "c++ and c# developer") = false := by
  refine ⟨?_, by decide, by decide, by decide⟩
  intro term text hlast hall
  by_contra hmem
  rw [Bool.not_eq_false] at hmem
  obtain ⟨i, hi, hsub, hb1, hb2⟩ := (skill_mentioned_iff term text).mp hmem
  set s := (lowerStr term).data with hs
  set t := text.data with ht
  have hne : s ≠ [] := by
    intro he
    rw [he] at hlast
    exact absurd hlast (by decide)
  have hlen : 1 ≤ s.length := by
    have := List.length_pos.mpr hne
    omega
  obtain ⟨c, hc⟩ : ∃ c, s.getLast? = some c := by
    cases hgl : s.getLast? with
    | none => exact absurd (List.getLast?_eq_none_iff.mp hgl) hne
    | some c => exact ⟨c, rfl⟩
  have hcw : isWordChar c = false := by
    rw [hc] at hlast
    simpa using hlast
  have hget : t.get? (i + (s.length - 1)) = some c := by
    rw [sublistAt_get hsub (by omega)]
    rw [← List.getLast?_eq_get?]
    exact hc
  have hword_last : wordAt t (i + (s.length - 1)) = false := by
    unfold wordAt
    rw [hget]
    exact hcw
  have hword_after : wordAt t (i + s.length) = false := by
    have := List.all_eq_true.mp hall i (List.mem_range.mpr (by omega))
    rcases Bool.or_eq_true_iff.mp this with h | h
    · rw [Bool.not_eq_true'] at h
      rw [h] at hsub
      exact absurd hsub (by simp)
    · rw [Bool.not_eq_true'] at h
      exact h
  have hsplit : i + s.length = (i + (s.length - 1)) + 1 := by omega
  have hprev : prevWordAt t (i + s.length) = false := by
    rw [hsplit]
    exact hword_last
  rw [boundaryAt, hprev, hword_after] at hb2
  simp at hb2

/-- C10 witness at the term c++ and the text c++ developer. -/
theorem C10_nonword_tail_witness :
    skill_mentioned "c++" "c++ developer" = false :=
  C10_nonword_tail_never_matches.1 "c++" "c++ developer" (by decide) (by decide)

/-- C4: a category whose required set is empty never appears in
category_scores; every category score equals the exact-match count over the
required count times 100; the overall score is the matched total over the
required total times 100, or 0 when nothing is required; and on the
concrete example the result is exact_matches python, missing javascript,
category score 50 and overall score 50. -/
theorem C4_match_skills_scores :
    (∀ (cand req : List (String × List String)) (c : String),
        setOfList (pyGetList req c) = [] →
        (calculate_skill_match_score cand req).category_scores.lookup c = none) ∧
    (∀ (cand req : List (String × List String)) (c : String) (q : ℚ),
        (c, q) ∈ (calculate_skill_match_score cand req).category_scores →
        q = (((((calculate_skill_match_score cand req).exact_matches.lookup c).getD
                []).length : ℚ) /
            ((setOfList (pyGetList req c)).length : ℚ)) * 100) ∧
    (∀ (cand req : List (String × List String)),
        (calculate_skill_match_score cand req).overall_score =
          if (calculate_skill_match_score cand req).total_required = 0 then 0
          else ((calculate_skill_match_score cand req).total_matched : ℚ) /
               ((calculate_skill_match_score cand req).total_required : ℚ) * 100) ∧
    ((calculate_skill_match_score [("programming_languages", ["python", "java"])]
        [("programming_languages", ["python", "javascript"])]).exact_matches.lookup
        "programming_languages" = some ["python"]) ∧
    ((calculate_skill_match_score [("programming_languages", ["python", "java"])]
        [("programming_languages", ["python", "javascript"])]).missing_skills.lookup
        "programming_languages" = some ["javascript"]) ∧
    ((calculate_skill_match_score [("programming_languages", ["python", "java"])]
        [("programming_languages", ["python", "javascript"])]).category_scores.lookup
        "programming_languages" = some 50) ∧
    ((calculate_skill_match_score [("programming_languages", ["python", "java"])]
        [("programming_languages", ["python", "javascript"])]).overall_score = 50) := by
  refine ⟨?_, ?_, ?_, ?_, ?_, ?_, ?_⟩
  · intro cand req c h0
    rw [category_scores_lookup, if_neg]
    intro hmem
    exact absurd (mem_activeCats.mp hmem).2 (by simp [h0])
  · intro cand req c q hmem
    simp only [calculate_skill_match_score, List.mem_map] at hmem
    obtain ⟨a, ha, heq⟩ := hmem
    obtain ⟨rfl, rfl⟩ : a = c ∧ catScore cand req a = q := by
      exact ⟨congrArg Prod.fst heq, congrArg Prod.snd heq⟩
    rw [exact_matches_lookup, if_pos ha]
    simp only [Option.getD_some]
    unfold catScore
    ring
  · intro cand req
    simp only [calculate_skill_match_score]
    rcases Nat.eq_zero_or_pos
        ((activeCats cand req).map
          (fun c => (setOfList (pyGetList req c)).length)).sum with h | h
    · rw [if_neg (by omega), if_pos h]
    · rw [if_pos h, if_neg (by omega)]
  · rw [exact_matches_lookup, if_pos (by decide)]
    have : exactOf [("programming_languages", ["python", "java"])]
        [("programming_languages", ["python", "javascript"])] "programming_languages" =
        ["python"] := by decide
    rw [this]
  · rw [missing_skills_lookup, if_pos (by decide)]
    have : missingOf [("programming_languages", ["python", "java"])]
        [("programming_languages", ["python", "javascript"])] "programming_languages" =
        ["javascript"] := by decide
    rw [this]
  · rw [category_scores_lookup, if_pos (by decide)]
    have h1 : (exactOf [("programming_languages", ["python", "java"])]
        [("programming_languages", ["python", "javascript"])]
        "programming_languages").length = 1 := by decide
    have h2 : (setOfList (pyGetList [("programming_languages", ["python", "javascript"])]
        "programming_languages")).length = 2 := by decide
    unfold catScore
    rw [h1, h2]
    norm_num
  · have h1 : (calculate_skill_match_score [("programming_languages", ["python", "java"])]
        [("programming_languages", ["python", "javascript"])]).total_matched = 1 := by decide
    have h2 : (calculate_skill_match_score [("programming_languages", ["python", "java"])]
        [("programming_languages", ["python", "javascript"])]).total_required = 2 := by decide
    simp only [calculate_skill_match_score] at h1 h2 ⊢
    rw [h1, h2, if_pos (by omega)]
    norm_num

/-- C4 witness: the empty-required-category part applied at a category
absent from the required map, and the score formula applied at the example
category. -/
theorem C4_match_skills_witness :
    setOfList (pyGetList [("programming_languages", ["python", "javascript"])] "databases") =
      [] ∧
    (calculate_skill_match_score [("programming_languages", ["python", "java"])]
        [("programming_languages", ["python", "javascript"])]).category_scores.lookup
        "databases" = none :=
  ⟨by decide,
   C4_match_skills_scores.1 [("programming_languages", ["python", "java"])]
     [("programming_languages", ["python", "javascript"])] "databases" (by decide)⟩

/-- C8: adding to the candidate set for a category an element that belongs
to the required set for that category never decreases that category score:
both runs produce a score for the category and the new score is at least
the old one. -/
theorem C8_candidate_monotonicity :
    ∀ (cand req : List (String × List String)) (cat x : String),
      x ∈ pyGetList req cat →
      ∃ q q',
        (calculate_skill_match_score cand req).category_scores.lookup cat = some q ∧
        (calculate_skill_match_score (appendEntry cand cat x)
            req).category_scores.lookup cat = some q' ∧
        q ≤ q' := by
  intro cand req cat x hx
  obtain ⟨l, hl, _⟩ := lookup_of_pyGetList_mem hx
  have hreq_ne : setOfList (pyGetList req cat) ≠ [] := by
    intro h0
    have hxm : x ∈ setOfList (pyGetList req cat) := List.mem_dedup.mpr hx
    rw [h0] at hxm
    simp at hxm
  have hkeys : cat ∈ req.map Prod.fst := mem_keys_of_lookup hl
  have hact1 : cat ∈ activeCats cand req :=
    mem_activeCats.mpr ⟨mem_unionCats_right hkeys, hreq_ne⟩
  have hact2 : cat ∈ activeCats (appendEntry cand cat x) req :=
    mem_activeCats.mpr ⟨mem_unionCats_right hkeys, hreq_ne⟩
  refine ⟨catScore cand req cat, catScore (appendEntry cand cat x) req cat, ?_, ?_, ?_⟩
  · rw [category_scores_lookup, if_pos hact1]
  · rw [category_scores_lookup, if_pos hact2]
  · have hsub : (exactOf cand req cat).length ≤
        (exactOf (appendEntry cand cat x) req cat).length := by
      apply List.Subperm.length_le
      apply List.Nodup.subperm (exactOf_nodup cand req cat)
      intro a ha
      simp only [exactOf, setOfList, List.mem_filter, List.mem_dedup,
        decide_eq_true_eq] at ha ⊢
      refine ⟨?_, ha.2⟩
      rw [pyGetList_appendEntry]
      exact List.mem_append_left _ ha.1
    have hd : (0 : ℚ) < ((setOfList (pyGetList req cat)).length : ℚ) := by
      have : 0 < (setOfList (pyGetList req cat)).length := List.length_pos.mpr hreq_ne
      exact_mod_cast this
    unfold catScore
    apply mul_le_mul_of_nonneg_right _ (by norm_num : (0 : ℚ) ≤ 100)
    exact (div_le_div_right hd).mpr (by exact_mod_cast hsub)

/-- C8 witness at the concrete example maps, adding the required skill
javascript to the candidate set. -/
theorem C8_candidate_monotonicity_witness :
    "javascript" ∈ pyGetList [("programming_languages", ["python", "javascript"])]
      "programming_languages" ∧
    ∃ q q',
      (calculate_skill_match_score [("programming_languages", ["python"])]
          [("programming_languages", ["python", "javascript"])]).category_scores.lookup
          "programming_languages" = some q ∧
      (calculate_skill_match_score
          (appendEntry [("programming_languages", ["python"])] "programming_languages"
            "javascript")
          [("programming_languages", ["python", "javascript"])]).category_scores.lookup
          "programming_languages" = some q' ∧
      q ≤ q' :=
  ⟨by decide,
   C8_candidate_monotonicity [("programming_languages", ["python"])]
     [("programming_languages", ["python", "javascript"])] "programming_languages"
     "javascript" (by decide)⟩

/-- C9: counterexample. For the input record whose overall_score field is
-100, calculate_skills_score returns total_score -13, outside [0, 100]:
min(overall, 100) caps only from above, so a negative overall match score
propagates into a negative skills total. -/
theorem C9_negative_total_counterexample :
    (calculate_skills_score [("overall_score", PyObj.num (-100))]).total_score = -13 ∧
    (calculate_skills_score [("overall_score", PyObj.num (-100))]).total_score < 0 := by
  have h := calculate_skills_score_typed [("overall_score", PyObj.num (-100))] [] [] (-100)
    rfl rfl rfl
  rw [h]
  have hsum : sumLens ([] : List (String × List String)) = 0 := rfl
  have hm : minQ (-100) 100 = -100 := by rw [minQ_eq]; rw [min_eq_left (by norm_num)]
  constructor
  · show round2 (minQ (-100) 100 * 0.4 + _ + _) = -13
    rw [hm]
    norm_num [hsum]
    exact round2_int (-1300) (by norm_num)
  · show round2 (minQ (-100) 100 * 0.4 + _ + _) < 0
    rw [hm]
    norm_num [hsum]
    rw [round2_int (-1300) (by norm_num)]
    norm_num

/-- C9 (amended): every per-category score of the match calculator lies in
[0, 100] unconditionally; the experience and education totals lie in
[0, 100] unconditionally; the skills total lies in [0, 100] provided the
overall_score field of the input record lies in [0, 100] (as the match
calculator guarantees); and the overall score lies in [0, 100] provided
the three component total_score fields are numbers in [0, 100]. -/
theorem C9_scores_in_range :
    (∀ (cand req : List (String × List String)) (c : String) (q : ℚ),
        (c, q) ∈ (calculate_skill_match_score cand req).category_scores →
        0 ≤ q ∧ q ≤ 100) ∧
    (∀ (sa : PyDict) (em ms : List (String × List String)) (q : ℚ),
        dictGetD sa "exact_matches" (.dict []) = .dict em →
        dictGetD sa "missing_skills" (.dict []) = .dict ms →
        dictGetD sa "overall_score" (.num 0) = .num q →
        0 ≤ q → q ≤ 100 →
        0 ≤ (calculate_skills_score sa).total_score ∧
        (calculate_skills_score sa).total_score ≤ 100) ∧
    (∀ (ea rd : PyDict),
        0 ≤ (calculate_experience_score ea rd).total_score ∧
        (calculate_experience_score ea rd).total_score ≤ 100) ∧
    (∀ (rd jd : PyDict),
        0 ≤ (calculate_education_score rd jd).total_score ∧
        (calculate_education_score rd jd).total_score ≤ 100) ∧
    (∀ (sd ed dd rd : PyDict) (s e d : ℚ),
        dictGetD sd "total_score" (.num 0) = .num s →
        dictGetD ed "total_score" (.num 0) = .num e →
        dictGetD dd "total_score" (.num 0) = .num d →
        0 ≤ s → s ≤ 100 → 0 ≤ e → e ≤ 100 → 0 ≤ d → d ≤ 100 →
        resultScore (calculate_overall_score sd ed dd rd) =
          some (round2 (s * 0.35 + e * 0.30 + d * 0.15 +
            _calculate_achievements_score rd * 0.10)) ∧
        0 ≤ round2 (s * 0.35 + e * 0.30 + d * 0.15 +
            _calculate_achievements_score rd * 0.10) ∧
        round2 (s * 0.35 + e * 0.30 + d * 0.15 +
            _calculate_achievements_score rd * 0.10) ≤ 100) := by
  refine ⟨?_, ?_, experience_total_bounds, education_total_bounds, ?_⟩
  · intro cand req c q hmem
    simp only [calculate_skill_match_score, List.mem_map] at hmem
    obtain ⟨a, ha, heq⟩ := hmem
    obtain ⟨rfl, rfl⟩ : a = c ∧ catScore cand req a = q :=
      ⟨congrArg Prod.fst heq, congrArg Prod.snd heq⟩
    exact catScore_bounds cand req a (mem_activeCats.mp ha).2
  · intro sa em ms q he hm ho hq0 hq1
    exact skills_total_bounds sa em ms q he hm ho hq0 hq1
  · intro sd ed dd rd s e d hs he hd hs0 hs1 he0 he1 hd0 hd1
    obtain ⟨ha0, ha1⟩ := achievements_bounds rd
    refine ⟨overall_score_typed sd ed dd rd s e d hs he hd, ?_, ?_⟩
    · apply round2_nonneg
      linarith
    · apply round2_le_100
      linarith

/-- C9 witness: the overall-score part applied at numeric component records
50, 60 and 70. -/
theorem C9_scores_in_range_witness :
    resultScore (calculate_overall_score [("total_score", PyObj.num 50)]
        [("total_score", PyObj.num 60)] [("total_score", PyObj.num 70)] []) =
      some (round2 ((50 : ℚ) * 0.35 + 60 * 0.30 + 70 * 0.15 +
        _calculate_achievements_score [] * 0.10)) ∧
    0 ≤ round2 ((50 : ℚ) * 0.35 + 60 * 0.30 + 70 * 0.15 +
        _calculate_achievements_score [] * 0.10) ∧
    round2 ((50 : ℚ) * 0.35 + 60 * 0.30 + 70 * 0.15 +
        _calculate_achievements_score [] * 0.10) ≤ 100 :=
  C9_scores_in_range.2.2.2.2 [("total_score", PyObj.num 50)] [("total_score", PyObj.num 60)]
    [("total_score", PyObj.num 70)] [] 50 60 70 rfl rfl rfl (by norm_num) (by norm_num)
    (by norm_num) (by norm_num) (by norm_num) (by norm_num)

/-- C5: counterexample. At the record with overall_score 100/3 and no
matches, the stored total_score is round(121/3, 2) = 40.33, which differs
from the exact weighted sum 0.4·technical + 0.3·depth + 0.3·relevance =
121/3: the code rounds the weighted total to two decimals before storing
it, which the claim formula omits. -/
theorem C5_rounding_counterexample :
    (calculate_skills_score [("exact_matches", PyObj.dict []),
        ("missing_skills", PyObj.dict []),
        ("overall_score", PyObj.num (100/3))]).total_score = 4033/100 ∧
    minQ (100/3) 100 * 0.4 + 40 * 0.3 + 50 * 0.3 = 121/3 ∧
    (4033/100 : ℚ) ≠ 121/3 := by
  have h := calculate_skills_score_typed [("exact_matches", PyObj.dict []),
    ("missing_skills", PyObj.dict []), ("overall_score", PyObj.num (100/3))] [] [] (100/3)
    rfl rfl rfl
  have hm : minQ (100/3 : ℚ) 100 = 100/3 := by
    rw [minQ_eq, min_eq_left (by norm_num)]
  have hr : round2 (121/3) = 4033/100 := by
    unfold round2
    rw [rndHalfEven_eq]
    have h1 : ⌊(121/3 : ℚ) * 100⌋ = 4033 := by norm_num
    rw [h1, if_neg (by norm_num)]
    have h2 : ⌊(121/3 : ℚ) * 100 + 1/2⌋ = 4033 := by norm_num
    rw [h2]
    norm_num
  refine ⟨?_, by rw [hm]; norm_num, by norm_num⟩
  rw [h]
  show round2 (minQ (100/3) 100 * 0.4 + _ + _) = 4033/100
  rw [hm]
  have hsum : sumLens ([] : List (String × List String)) = 0 := rfl
  norm_num [hsum]
  convert hr using 2

/-- C5 (amended): for every well-typed skill-analysis record, the skills
total is the weighted sum 0.4·technical + 0.3·depth + 0.3·relevance rounded
to two decimal places (ties to even), with technical = min(overall, 100),
depth the step function of the exact-match count, and relevance the
exact/(exact+missing) ratio (50 when both counts are 0); the example with
overall 75, 3 exact matches and 1 missing skill yields 70.5 exactly. -/
theorem C5_skills_total_formula :
    (∀ (em ms : List (String × List String)) (q : ℚ),
        (calculate_skills_score [("exact_matches", PyObj.dict em),
            ("missing_skills", PyObj.dict ms),
            ("overall_score", PyObj.num q)]).total_score =
          round2 (minQ q 100 * 0.4 +
            (if sumLens em ≥ 8 then 90 else if sumLens em ≥ 5 then 75
             else if sumLens em ≥ 3 then 60 else 40) * 0.3 +
            (if sumLens em + sumLens ms = 0 then 50
             else minQ ((sumLens em : ℚ) /
                    ((sumLens em : ℚ) + (sumLens ms : ℚ)) * 100) 100) * 0.3)) ∧
    (calculate_skills_score
        [("exact_matches", PyObj.dict [("programming_languages",
            ["python", "java", "go"])]),
         ("missing_skills", PyObj.dict [("programming_languages", ["rust"])]),
         ("overall_score", PyObj.num 75)]).total_score = 141/2 := by
  constructor
  · intro em ms q
    rw [calculate_skills_score_typed
      [("exact_matches", PyObj.dict em), ("missing_skills", PyObj.dict ms),
       ("overall_score", PyObj.num q)] em ms q rfl rfl rfl]
  · rw [calculate_skills_score_typed
      [("exact_matches", PyObj.dict [("programming_languages", ["python", "java", "go"])]),
       ("missing_skills", PyObj.dict [("programming_languages", ["rust"])]),
       ("overall_score", PyObj.num 75)]
      [("programming_languages", ["python", "java", "go"])]
      [("programming_languages", ["rust"])] 75 rfl rfl rfl]
    have h3 : sumLens [("programming_languages", ["python", "java", "go"])] = 3 := rfl
    have h1 : sumLens [("programming_languages", ["rust"])] = 1 := rfl
    have hm : minQ (75 : ℚ) 100 = 75 := by rw [minQ_eq, min_eq_left (by norm_num)]
    show round2 _ = 141/2
    rw [h3, h1]
    norm_num [hm]
    exact round2_int 7050 (by norm_num)

/-- C1: counterexample. For a record whose exact_matches field is the number
5 (not a dict), calculate_skills_score catches the internal error and sets
the error message, but the technical_skills sub-score assigned before the
failure keeps the value 75 instead of 0; and calculate_overall_score, which
has no try/except, surfaces an error to the caller when a total_score field
is a string. -/
theorem C1_subscores_not_zeroed :
    (calculate_skills_score [("exact_matches", PyObj.num 5),
        ("overall_score", PyObj.num 75)]).error =
      some "Skills scoring error: AttributeError: object has no attribute values" ∧
    (calculate_skills_score [("exact_matches", PyObj.num 5),
        ("overall_score", PyObj.num 75)]).technical_skills = 75 ∧
    ((75 : ℚ) ≠ 0) ∧
    isError (calculate_overall_score [("total_score", PyObj.str "x")] [] [] []) = true := by
  have h : calculate_skills_score [("exact_matches", PyObj.num 5),
      ("overall_score", PyObj.num 75)] =
      { technical_skills := minQ 75 100, skill_depth := 0, skill_relevance := 0,
        total_score := 0, details := none,
        error := some ("Skills scoring error: " ++
          "AttributeError: object has no attribute values") } := rfl
  refine ⟨?_, ?_, by norm_num, by decide⟩
  · rw [h]
    rfl
  · rw [h]
    show minQ 75 100 = 75
    rw [minQ_eq, min_eq_left (by norm_num)]

/-- C1 (amended): calculate_skills_score never surfaces an exception: it
either succeeds, with no error field and the rounded weighted total, or
catches the failure, records an error message and resets only total_score
to 0 (sub-scores assigned before the failure keep their values); but
calculate_overall_score has no boundary catch and can return an error to
the caller. -/
theorem C1_boundary_error_semantics :
    (∀ sa : PyDict,
        ((calculate_skills_score sa).error = none ∧
         (calculate_skills_score sa).total_score =
           round2 ((calculate_skills_score sa).technical_skills * 0.4 +
                   (calculate_skills_score sa).skill_depth * 0.3 +
                   (calculate_skills_score sa).skill_relevance * 0.3)) ∨
        (∃ msg, (calculate_skills_score sa).error = some msg ∧
                (calculate_skills_score sa).total_score = 0)) ∧
    isError (calculate_overall_score [("total_score", PyObj.str "x")] [] [] []) = true := by
  refine ⟨?_, by decide⟩
  intro sa
  unfold calculate_skills_score
  dsimp only
  repeat' split
  all_goals first
    | (left; exact ⟨rfl, rfl⟩)
    | (right; exact ⟨_, rfl, rfl⟩)

end LangHire
